import Mathlib

/-!
# Verification of the loopback-google-pubsub relay (`pubsub.js`)

Shallow embedding of the change-data-capture relay in `pubsub.js`:
the registry entry point (`module.exports`), the `Pubsub` configurator,
the server-side model hooks (`beforeSaveHook`, `afterSaveHook`,
`beforeDeleteHook`), the filter chain (`shouldPublish`), and the
client-side subscription callback (`clientSide`).

JavaScript values are modelled by an inductive `JsVal` with JS
truthiness; exceptions and rejected promises are modelled by `Except`;
the process-wide registry is explicit state; promise sequencing in
`clientSide` is modelled by an event trace.
-/

namespace LoopbackPubsub

/-- Errors: a thrown JS exception or a rejected promise, carrying its
message. -/
abbrev JsErr := String

/-- A JavaScript value, as far as the relay inspects them: `null`,
`undefined`, strings, numbers, booleans and plain objects
(association lists of properties).  `JSON.parse(JSON.stringify(x))`
deep-copies a value; on this immutable value model it is the
identity, so it is not represented explicitly. -/
inductive JsVal where
  | null
  | jsUndefined
  | str (s : String)
  | num (n : Int)
  | boolean (b : Bool)
  | obj (fields : List (String × JsVal))

/-- JS truthiness of a value (`if (v)`), on the fragment modelled
(`NaN` does not arise). -/
def truthy : JsVal → Bool
  | .null => false
  | .jsUndefined => false
  | .str s => s ≠ ""
  | .num n => n ≠ 0
  | .boolean b => b
  | .obj _ => true

/-- Property access `v.k`: `undefined` on a missing property or a
non-object. -/
def getProp : JsVal → String → JsVal
  | .obj fields, k => (fields.lookup k).getD .jsUndefined
  | _, _ => .jsUndefined

/-- JS `a || b`: `a` when truthy, otherwise `b`. -/
def jsOr (a b : JsVal) : JsVal :=
  if truthy a then a else b

/-- Per-operation scratch state `ctx.hookState` (properties read by the
hooks; `jsUndefined` when a property was never written). -/
structure HookState where
  updateData : JsVal := .jsUndefined
  dataBeforeUpdate : JsVal := .jsUndefined
  orderBeforeUpdate : JsVal := .jsUndefined

/-- The operation-hook context `ctx` as the hooks read it.
`modelName` stands for the chain `ctx.Model && ctx.Model.definition &&
ctx.Model.definition.name` (the name, or a falsy value when any link is
missing); `inst` is `ctx.instance` (`jsUndefined` when absent);
`whereClause` is `ctx.where`; `data` is `ctx.data`. -/
structure Ctx where
  modelName : JsVal := .jsUndefined
  isNewInstance : Bool := false
  inst : JsVal := .jsUndefined
  whereClause : JsVal := .jsUndefined
  data : JsVal := .jsUndefined
  hookState : HookState := {}

/-- Embeds `getModelName(ctx)` (`pubsub.js` line 242). -/
def getModelName (ctx : Ctx) : JsVal :=
  ctx.modelName

/-- One entry of `options.filters`.  `notFunction` is an entry whose
`getType` is not `'Function'`; `func` is a callable filter, which may
throw (`Except.error`) or return a value whose truthiness decides the
veto. -/
inductive FilterEntry where
  | notFunction (v : JsVal)
  | func (f : JsVal → JsVal → JsVal → Ctx → Except JsErr JsVal)

/-- The relay instance (`self` in `pubsub.js`): fields that `Pubsub`
assigns.  `none` models a field never set (`undefined`). -/
structure Relay where
  serviceName : Option String := none
  env : Option String := none
  filters : Option (List FilterEntry) := none
  type : Option String := none

/-- One step of `self.filters.every(fn => ...)`: a non-callable entry
passes; a callable one is invoked, a throw propagates, a falsy return
vetoes (`.every` short-circuits on `false`). -/
def everyFilter (modelName methodName inst : JsVal) (ctx : Ctx) :
    List FilterEntry → Except JsErr Bool
  | [] => .ok true
  | .notFunction _ :: rest => everyFilter modelName methodName inst ctx rest
  | .func f :: rest =>
    match f modelName methodName inst ctx with
    | .error e => .error e
    | .ok v =>
      if truthy v then everyFilter modelName methodName inst ctx rest
      else .ok false

/-- Embeds `shouldPublish(self, modelName, methodName, instance, ctx)`
(`pubsub.js` lines 79-88): publish-always when `self.filters` is absent
or empty, otherwise run every filter. -/
def shouldPublish (self : Relay) (modelName methodName inst : JsVal)
    (ctx : Ctx) : Except JsErr Bool :=
  match self.filters with
  | none => .ok true
  | some fs =>
    if fs.isEmpty then .ok true
    else everyFilter modelName methodName inst ctx fs

/-- The change envelope handed to `self.pubsub.emit`.  The after-save
paths set every field; the delete path builds a smaller object, so the
fields it omits are `Option` with `none` for an absent property. -/
structure Envelope where
  modelName : JsVal
  methodName : JsVal
  modelId : JsVal
  data : JsVal
  updateData : Option JsVal
  userId : JsVal
  dataBeforeUpdate : Option JsVal
  orderBeforeUpdate : Option JsVal

/-- The pieces of the loopback `app` the hooks read.
`hasModel` tells whether `app.models[modelName]` is defined;
`find` is `Model.find({where: w})`, which may reject;
`accessToken` is `app.loopback.getCurrentContext() &&
context.get('accessToken')` (a falsy value when either is absent). -/
structure App where
  hasModel : JsVal → Bool
  find : JsVal → JsVal → Except JsErr (List JsVal)
  accessToken : JsVal

/-- Actor capture in the hooks (`pubsub.js` lines 113-116 and 197-200):
`let userId = null; if (accessToken) userId = accessToken.userId`. -/
def capturedUserId (app : App) : JsVal :=
  if truthy app.accessToken then getProp app.accessToken "userId"
  else .null

/-- What one run of a hook did: the envelopes handed to
`self.pubsub.emit` (in order), and how the hook chain ended —
`.ok ()` for `next()` with no error, `.error e` for `next(err)`, a
rejected returned promise, or a synchronous throw (all of which fail
the loopback hook chain). -/
structure HookRun where
  emitted : List Envelope
  outcome : Except JsErr Unit

/-- The `.filter(m => shouldPublish(...))` step of the bulk paths: keep
the records every filter passes; a throw inside the filter callback
rejects the surrounding promise chain. -/
def filterModels (self : Relay) (modelName methodName : JsVal) (ctx : Ctx) :
    List JsVal → Except JsErr (List JsVal)
  | [] => .ok []
  | m :: rest => do
    let keep ← shouldPublish self modelName methodName m ctx
    let rest' ← filterModels self modelName methodName ctx rest
    pure (if keep then m :: rest' else rest')

/-- Embeds `Promise.all(data.map(d => self.pubsub.emit(d, ...)))`: every emit
is started (the envelopes are all handed to the transport), and the
combined promise rejects when any emit rejects. -/
def allEmit (emit : Envelope → Except JsErr Unit) :
    List Envelope → Except JsErr Unit
  | [] => .ok ()
  | e :: rest =>
    match emit e with
    | .error err => .error err
    | .ok () => allEmit emit rest

/-- Embeds `beforeSaveHook` (`pubsub.js` lines 90-99): snapshot `ctx.data`
(else `ctx.instance`) into `ctx.hookState.updateData`, then `next()`.
Returns the hook state after the run. -/
def beforeSaveHook (ctx : Ctx) : HookState :=
  if truthy ctx.data then { ctx.hookState with updateData := ctx.data }
  else if truthy ctx.inst then { ctx.hookState with updateData := ctx.inst }
  else ctx.hookState

/-- The envelope built for one record `m` in the bulk after-save path
(`pubsub.js` lines 156-165). -/
def bulkSaveEnvelope (modelName methodName updateData userId
    dataBeforeUpdate : JsVal) (m : JsVal) : Envelope :=
  { modelName := modelName
    methodName := methodName
    modelId := getProp m "id"
    data := m
    updateData := some updateData
    userId := userId
    dataBeforeUpdate := some dataBeforeUpdate
    orderBeforeUpdate := some dataBeforeUpdate }

/-- Embeds `afterSaveHook` (`pubsub.js` lines 101-183), as a function from the
relay, the app, the transport's response to each emit, and the hook
context, to what the run emitted and how the chain ended.

Single-instance branch: when `ctx.instance` and `ctx.instance.id` are
truthy, `shouldPublish` runs synchronously (a throw escapes the hook
body); when it passes, one envelope is emitted and the hook returns the
emit promise (loopback resolves it into `next`).  Bulk branch: `next()`
when `ctx.where` is falsy or the model is missing; otherwise re-query
by the predicate, filter, map to envelopes, emit them all in parallel;
`.catch(next)` turns any rejection into a failed chain.

`afterSaveBulk` is the code from `if (!ctx.where) return next();` on
(`pubsub.js` lines 139-181), reached when the single-instance condition
did not take the early `return`; `afterSaveHook` is the whole hook. -/
def afterSaveBulk (self : Relay) (app : App)
    (emit : Envelope → Except JsErr Unit) (ctx : Ctx)
    (modelName methodName updateData userId dataBeforeUpdate : JsVal) : HookRun :=
  if ¬ truthy ctx.whereClause then { emitted := [], outcome := .ok () }
  else if ¬ app.hasModel modelName then { emitted := [], outcome := .ok () }
  else
    match app.find modelName ctx.whereClause with
    | .error e => { emitted := [], outcome := .error e }
    | .ok models =>
      if models.length < 1 then { emitted := [], outcome := .ok () }
      else
        match filterModels self modelName methodName ctx models with
        | .error e => { emitted := [], outcome := .error e }
        | .ok kept =>
          let data := kept.map
            (bulkSaveEnvelope modelName methodName updateData userId dataBeforeUpdate)
          if data.length > 0 then
            { emitted := data, outcome := allEmit emit data }
          else { emitted := [], outcome := .ok () }

def afterSaveHook (self : Relay) (app : App)
    (emit : Envelope → Except JsErr Unit) (ctx : Ctx) : HookRun :=
  let modelName := getModelName ctx
  if ¬ truthy modelName then { emitted := [], outcome := .ok () }
  else
    let methodName : JsVal := if ctx.isNewInstance then .str "create" else .str "update"
    let updateData := ctx.hookState.updateData
    let dataBeforeUpdate := jsOr ctx.hookState.dataBeforeUpdate ctx.hookState.orderBeforeUpdate
    let userId := capturedUserId app
    if truthy ctx.inst ∧ truthy (getProp ctx.inst "id") then
      match shouldPublish self modelName methodName ctx.inst ctx with
      | .error e => { emitted := [], outcome := .error e }
      | .ok true =>
        let env : Envelope :=
          { modelName := modelName
            methodName := methodName
            modelId := getProp ctx.inst "id"
            data := ctx.inst
            updateData := some updateData
            userId := userId
            dataBeforeUpdate := some dataBeforeUpdate
            orderBeforeUpdate := some dataBeforeUpdate }
        { emitted := [env], outcome := emit env }
      | .ok false =>
        afterSaveBulk self app emit ctx modelName methodName updateData userId dataBeforeUpdate
    else
      afterSaveBulk self app emit ctx modelName methodName updateData userId dataBeforeUpdate

/-- The envelope built for one record `m` in the delete path
(`pubsub.js` lines 214-220): no `updateData`, `dataBeforeUpdate` or
`orderBeforeUpdate` properties. -/
def deleteEnvelope (modelName userId : JsVal) (m : JsVal) : Envelope :=
  { modelName := modelName
    methodName := .str "delete"
    modelId := getProp m "id"
    data := m
    updateData := none
    userId := userId
    dataBeforeUpdate := none
    orderBeforeUpdate := none }

/-- Embeds `beforeDeleteHook` (`pubsub.js` lines 186-237): re-query the
records the predicate matches, filter, emit one delete envelope per
surviving record; `.catch(next)` turns any rejection into a failed
chain.  The source reads `app.models[modelName]` without an existence
check, so a missing model is a synchronous `TypeError`. -/
def beforeDeleteHook (self : Relay) (app : App)
    (emit : Envelope → Except JsErr Unit) (ctx : Ctx) : HookRun :=
  let modelName := getModelName ctx
  if ¬ truthy modelName then { emitted := [], outcome := .ok () }
  else if ¬ app.hasModel modelName then
    { emitted := [], outcome := .error "TypeError: Model is undefined" }
  else
    let methodName : JsVal := .str "delete"
    let userId := capturedUserId app
    match app.find modelName ctx.whereClause with
    | .error e => { emitted := [], outcome := .error e }
    | .ok models =>
      if models.length < 1 then { emitted := [], outcome := .ok () }
      else
        match filterModels self modelName methodName ctx models with
        | .error e => { emitted := [], outcome := .error e }
        | .ok kept =>
          let data := kept.map (deleteEnvelope modelName userId)
          if data.length > 0 then
            { emitted := data, outcome := allEmit emit data }
          else { emitted := [], outcome := .ok () }

/-- The argument tuple `eventFn(modelName, methodName, modelId, data,
updateData, userId, dataBeforeUpdate)` (`pubsub.js` lines 337-345). -/
structure EventArgs where
  modelName : JsVal
  methodName : JsVal
  modelId : JsVal
  data : JsVal
  updateData : JsVal
  userId : JsVal
  dataBeforeUpdate : JsVal

/-- One invocation of `eventFn`: the arguments passed and the value the
actor-context variable (`pubsubUserId`) held while it ran. -/
structure Invocation where
  args : EventArgs
  slotDuring : JsVal

/-- The arguments `triggerEvent` reads off the decoded message `d`
(`pubsub.js` lines 337-345). -/
def eventArgsOf (d : JsVal) : EventArgs :=
  { modelName := getProp d "modelName"
    methodName := getProp d "methodName"
    modelId := getProp d "modelId"
    data := getProp d "data"
    updateData := getProp d "updateData"
    userId := getProp d "userId"
    dataBeforeUpdate := getProp d "dataBeforeUpdate" }

/-- One run of the per-message subscription callback: the value of the
actor-context variable afterwards, the `eventFn` invocations made, and
the promise the callback returned (`.error` for a rejection). -/
structure MessageRun where
  slotAfter : JsVal
  calls : List Invocation
  outcome : Except JsErr Unit

/-- The per-message `callback` registered by `clientSide`
(`pubsub.js` lines 314-356), for a message `d`, given the current value
`slot` of the context variable `pubsubUserId` (`jsUndefined` if never set)
and whether a loopback current context is available.

`setPubsubUserId` rejects when the context variable is already truthy
or `d.userId` is falsy (when no context exists, `getContext` assigns to
a `const` and throws a `TypeError`); `triggerEvent` then calls
`eventFn`; `unsetPubsubUserId` runs only when `eventFn` succeeded,
because it is chained with `.then` and no `.catch`, and it sets the
variable to `null`.  A falsy `d` makes the callback return `undefined`
without doing anything. -/
def subscriptionCallback (ctxAvail : Bool) (slot : JsVal)
    (eventFn : EventArgs → Except JsErr JsVal) (d : JsVal) : MessageRun :=
  if ¬ truthy d then { slotAfter := slot, calls := [], outcome := .ok () }
  else if ¬ ctxAvail then
    { slotAfter := slot, calls := [],
      outcome := .error "TypeError: Assignment to constant variable" }
  else if truthy slot then
    { slotAfter := slot, calls := [],
      outcome := .error "Unexpected existent pubsubUserId" }
  else
    let pubsubUserId := getProp d "userId"
    if ¬ truthy pubsubUserId then
      { slotAfter := slot, calls := [],
        outcome := .error "Could not find pubsubUserId" }
    else
      let args := eventArgsOf d
      let inv : Invocation := { args := args, slotDuring := pubsubUserId }
      match eventFn args with
      | .error e => { slotAfter := pubsubUserId, calls := [inv], outcome := .error e }
      | .ok _ => { slotAfter := .null, calls := [inv], outcome := .ok () }

/-- Events of subscription setup: `subStart m` marks
`self.pubsub.subscribe` being called for model `m`, `subDone m` marks
its promise resolving. -/
inductive SubEvent where
  | subStart (m : String)
  | subDone (m : String)
deriving Repr, DecidableEq

/-- One step of the `reduce` in `clientSide` (`pubsub.js` lines
305-359): `prev.then(() => subscribe(...))`.  When the accumulated
promise is already rejected the subscribe for this model never starts;
otherwise it starts, and completes or rejects as `subRes` says. -/
def subscribeStep (subRes : String → Except JsErr Unit)
    (acc : List SubEvent × Except JsErr Unit) (m : String) :
    List SubEvent × Except JsErr Unit :=
  match acc with
  | (tr, .error e) => (tr, .error e)
  | (tr, .ok ()) =>
    match subRes m with
    | .ok () => (tr ++ [.subStart m, .subDone m], .ok ())
    | .error e => (tr ++ [.subStart m], .error e)

/-- The `modelsToSubscribe.reduce(..., Promise.resolve())` chain. -/
def subscribeChain (subRes : String → Except JsErr Unit)
    (models : List String) : List SubEvent × Except JsErr Unit :=
  models.foldl (subscribeStep subRes) ([], .ok ())

/-- Shape of `options.filters` as received: absent (or falsy), truthy but not an
array (`getType !== 'Array'`), or an array of entries. -/
inductive FiltersOpt where
  | absent
  | truthyNonArray
  | arr (fs : List FilterEntry)

/-- The configuration options object.  `serviceName` is the string used
to key the registry (`""` models a missing or falsy value);
`hasEventFn` is the truthiness of `options.eventFn`. -/
structure Options where
  serviceName : String := ""
  type : Option String := none
  projectId : JsVal := .jsUndefined
  filters : FiltersOpt := .absent
  modelsToBroadcast : List String := []
  modelsToSubscribe : List String := []
  hasEventFn : Bool := false

/-- Truthiness of an optional string field (`!self.type`,
`options.type` as a condition). -/
def optTruthy : Option String → Bool
  | none => false
  | some s => s ≠ ""

/-- Embeds `clientSide(self, options, app)` (`pubsub.js` lines 286-360), up to
its subscription trace: the three validations reject, then the models
are subscribed sequentially through the `reduce` chain. -/
def clientSide (opts : Options) (subRes : String → Except JsErr Unit) :
    List SubEvent × Except JsErr Unit :=
  if ¬ truthy opts.projectId then
    ([], .error "Google Project Id is required for pubsub client")
  else if opts.modelsToSubscribe.isEmpty then
    ([], .error "modelsToSubscribe is required for pubsub client")
  else if ¬ opts.hasEventFn then
    ([], .error "eventFn is required for pubsub client")
  else subscribeChain subRes opts.modelsToSubscribe

/-- Embeds `Pubsub(app, options)` (`pubsub.js` lines 40-74) called with `this`
bound to `self`: assigns the identity fields only when still unset
(`if (!self.serviceName) ...`, `if (!self.env) ...`, filters only when
`!self.filters`, `if (!self.type) ...`), then dispatches on
`options.type`.  `serverSide` validation throws synchronously;
`clientSide` runs asynchronously, so its rejections do not escape this
call; an unknown truthy type throws.  `nodeEnv` is
`process.env.NODE_ENV` (`""` models it missing). -/
def Pubsub (self : Relay) (appPresent : Bool) (nodeEnv : String)
    (opts : Options) : Except JsErr Relay :=
  if opts.serviceName = "" then .error "options.serviceName is required"
  else
    let self := if optTruthy self.serviceName then self
      else { self with serviceName := some opts.serviceName }
    if nodeEnv = "" then .error "process.env.NODE_ENV is required"
    else
      let self := if optTruthy self.env then self
        else { self with env := some nodeEnv }
      match opts.filters, self.filters with
      | .truthyNonArray, none => .error "options.filters must be an array of functions"
      | _, _ =>
        let self :=
          match opts.filters, self.filters with
          | .arr fs, none => { self with filters := some fs }
          | _, _ => self
        let self := if optTruthy self.type then self
          else { self with type := opts.type }
        match opts.type with
        | some "client" => .ok self
        | some "server" =>
          if ¬ appPresent then .error "app is required for pubsub server"
          else if ¬ truthy opts.projectId then
            .error "Google Project Id is required for pubsub server"
          else if opts.modelsToBroadcast.isEmpty then
            .error "modelsToBroadcast is required for pubsub server"
          else .ok self
        | some t => if t = "" then .ok self else .error "Type is not valid. Valid options: client/server"
        | none => .ok self

/-- The process-wide `pubsubList`, with object identity made explicit:
`entries` maps a service name to an object reference, `heap` maps a
reference to the object's current field values, `nextRef` is the next
fresh reference. -/
structure RegistryState where
  entries : List (String × Nat) := []
  heap : List (Nat × Relay) := []
  nextRef : Nat := 0

/-- Read the relay object a reference denotes. -/
def heapGet (st : RegistryState) (r : Nat) : Relay :=
  (st.heap.lookup r).getD {}

/-- Overwrite the relay object a reference denotes (in-place mutation
of the same object). -/
def heapSet (heap : List (Nat × Relay)) (r : Nat) (v : Relay) :
    List (Nat × Relay) :=
  heap.map (fun p => if p.1 = r then (r, v) else p)

/-- The registry entry point `module.exports` (`pubsub.js` lines 9-23):
on a name not yet in `pubsubList`, create a fresh object via
`Pubsub.call({}, app, options)` and store it; on a known name,
reconfigure the existing object in place when `options.type` is truthy
(`Pubsub.call` returns `self`, so the reference is unchanged),
otherwise return it untouched.  A throw from `Pubsub` propagates and
leaves the registry entry unassigned. -/
def moduleExports (st : RegistryState) (appPresent : Bool)
    (nodeEnv : String) (opts : Options) : RegistryState × Except JsErr Nat :=
  let name := opts.serviceName
  match st.entries.lookup name with
  | none =>
    match Pubsub {} appPresent nodeEnv opts with
    | .error e => (st, .error e)
    | .ok relay =>
      ({ entries := (name, st.nextRef) :: st.entries
         heap := (st.nextRef, relay) :: st.heap
         nextRef := st.nextRef + 1 }, .ok st.nextRef)
  | some r =>
    if optTruthy opts.type then
      match Pubsub (heapGet st r) appPresent nodeEnv opts with
      | .error e => (st, .error e)
      | .ok relay => ({ st with heap := heapSet st.heap r relay }, .ok r)
    else (st, .ok r)

/-! ## Concrete fixtures used by witnesses and counterexamples -/

/-- Transport whose emits always succeed. -/
def okEmit : Envelope → Except JsErr Unit := fun _ => .ok ()

/-- Record object with the given numeric `id`. -/
def recId (n : Int) : JsVal := .obj [("id", .num n)]

/-- Filter vetoing exactly the records whose `id` is `2`. -/
def vetoIdTwo : FilterEntry :=
  .func (fun _ _ m _ =>
    match getProp m "id" with
    | .num 2 => .ok (.boolean false)
    | _ => .ok (.boolean true))

/-- App whose model store returns the records with ids 1, 2, 3 for any
query, with every model defined and no request context. -/
def threeRecApp : App :=
  ⟨fun _ => true, fun _ _ => .ok [recId 1, recId 2, recId 3], .jsUndefined⟩

/-- A bulk-update hook context: no `ctx.instance`, a truthy
`ctx.where`. -/
def bulkCtx : Ctx :=
  { modelName := .str "Customer", whereClause := .obj [("status", .str "x")] }

/-- App whose model store rejects every query. -/
def dbDownApp : App :=
  ⟨fun _ => true, fun _ _ => .error "db down", .jsUndefined⟩

/-- A filter function that always throws. -/
def throwingFilterFn : JsVal → JsVal → JsVal → Ctx → Except JsErr JsVal :=
  fun _ _ _ _ => .error "filter threw"

/-- The corresponding filter entry. -/
def throwingFilter : FilterEntry := .func throwingFilterFn

/-- A single-instance create context with record id 1. -/
def singleCtx : Ctx :=
  { modelName := .str "Customer", isNewInstance := true, inst := recId 1 }

/-- A decoded message carrying model name, method, id and user id. -/
def dmsg : JsVal :=
  .obj [("modelName", .str "Customer"), ("methodName", .str "create"),
        ("modelId", .str "7"), ("userId", .str "u1")]

/-! ## Theorems -/

/-- Helper: every envelope the bulk after-save path emits is
`bulkSaveEnvelope` of some record. -/
theorem afterSaveBulk_emitted_shape (self : Relay) (app : App)
    (emit : Envelope → Except JsErr Unit) (ctx : Ctx)
    (mn meth ud uid dbu : JsVal) :
    ∀ e ∈ (afterSaveBulk self app emit ctx mn meth ud uid dbu).emitted,
      ∃ m, e = bulkSaveEnvelope mn meth ud uid dbu m := by
  intro e he
  simp only [afterSaveBulk] at he
  repeat' split at he
  all_goals try simp only [List.not_mem_nil] at he
  all_goals
    obtain ⟨m, hm, he2⟩ := List.mem_map.mp he
    exact ⟨m, he2.symm⟩

/-- C5: a create or update of a single record whose instance carries a
non-empty (truthy) identifier and that passes the filter chain makes
the after-save hook emit exactly one envelope, whose `methodName` is
`create` when the operation created a new record and `update`
otherwise, and whose `modelId` is the record's identifier. -/
theorem afterSave_single_instance_one_envelope (self : Relay) (app : App)
    (emit : Envelope → Except JsErr Unit) (ctx : Ctx)
    (hname : truthy (getModelName ctx) = true)
    (hinst : truthy ctx.inst = true)
    (hid : truthy (getProp ctx.inst "id") = true)
    (hpub : shouldPublish self (getModelName ctx)
        (if ctx.isNewInstance then JsVal.str "create" else JsVal.str "update")
        ctx.inst ctx = .ok true) :
    (afterSaveHook self app emit ctx).emitted =
      [{ modelName := getModelName ctx
         methodName := if ctx.isNewInstance then JsVal.str "create" else JsVal.str "update"
         modelId := getProp ctx.inst "id"
         data := ctx.inst
         updateData := some ctx.hookState.updateData
         userId := capturedUserId app
         dataBeforeUpdate := some (jsOr ctx.hookState.dataBeforeUpdate ctx.hookState.orderBeforeUpdate)
         orderBeforeUpdate := some (jsOr ctx.hookState.dataBeforeUpdate ctx.hookState.orderBeforeUpdate) }] := by
  simp [afterSaveHook, hname, hinst, hid, hpub]

/-- Witness for C5: a concrete create of a record with identifier
`"42"` and no filters emits exactly that one envelope. -/
theorem afterSave_single_instance_one_envelope_witness :
    (afterSaveHook {} ⟨fun _ => true, fun _ _ => .ok [], .jsUndefined⟩ (fun _ => .ok ())
      { modelName := .str "Customer", isNewInstance := true,
        inst := .obj [("id", .str "42")] }).emitted =
      [{ modelName := .str "Customer", methodName := .str "create",
         modelId := .str "42", data := .obj [("id", .str "42")],
         updateData := some .jsUndefined, userId := .null,
         dataBeforeUpdate := some .jsUndefined, orderBeforeUpdate := some .jsUndefined }] := by
  have h := afterSave_single_instance_one_envelope {}
    ⟨fun _ => true, fun _ _ => .ok [], .jsUndefined⟩ (fun _ => .ok ())
    { modelName := .str "Customer", isNewInstance := true,
      inst := .obj [("id", .str "42")] } rfl rfl rfl rfl
  simpa using h

/-- C8: a deletion whose predicate re-query matches zero records makes
the before-delete hook emit zero envelopes and complete the hook chain
without error. -/
theorem beforeDelete_zero_matches (self : Relay) (app : App)
    (emit : Envelope → Except JsErr Unit) (ctx : Ctx)
    (hname : truthy (getModelName ctx) = true)
    (hmodel : app.hasModel (getModelName ctx) = true)
    (hfind : app.find (getModelName ctx) ctx.whereClause = .ok []) :
    (beforeDeleteHook self app emit ctx).emitted = [] ∧
    (beforeDeleteHook self app emit ctx).outcome = .ok () := by
  simp [beforeDeleteHook, hname, hmodel, hfind]

/-- Witness for C8: a concrete delete whose re-query returns the empty
list emits nothing and ends the chain cleanly. -/
theorem beforeDelete_zero_matches_witness :
    (beforeDeleteHook {} ⟨fun _ => true, fun _ _ => .ok [], .jsUndefined⟩ (fun _ => .ok ())
      { modelName := .str "Customer", whereClause := .obj [] }).emitted = [] ∧
    (beforeDeleteHook {} ⟨fun _ => true, fun _ _ => .ok [], .jsUndefined⟩ (fun _ => .ok ())
      { modelName := .str "Customer", whereClause := .obj [] }).outcome = .ok () :=
  beforeDelete_zero_matches {} ⟨fun _ => true, fun _ _ => .ok [], .jsUndefined⟩
    (fun _ => .ok ()) { modelName := .str "Customer", whereClause := .obj [] }
    rfl rfl rfl

/-- C10: every envelope the after-save hook emits (single-instance and
bulk paths alike) has `orderBeforeUpdate` equal to its
`dataBeforeUpdate`, and that value is the hook state's
`dataBeforeUpdate`, falling back to the hook state's
`orderBeforeUpdate` when the former is absent (the source computes
`ctx.hookState.dataBeforeUpdate || ctx.hookState.orderBeforeUpdate`). -/
theorem afterSave_orderBeforeUpdate_mirrors (self : Relay) (app : App)
    (emit : Envelope → Except JsErr Unit) (ctx : Ctx) :
    ∀ e ∈ (afterSaveHook self app emit ctx).emitted,
      e.orderBeforeUpdate = e.dataBeforeUpdate ∧
      e.dataBeforeUpdate =
        some (jsOr ctx.hookState.dataBeforeUpdate ctx.hookState.orderBeforeUpdate) ∧
      (truthy ctx.hookState.dataBeforeUpdate = true →
        e.dataBeforeUpdate = some ctx.hookState.dataBeforeUpdate) ∧
      (ctx.hookState.dataBeforeUpdate = JsVal.jsUndefined →
        e.dataBeforeUpdate = some ctx.hookState.orderBeforeUpdate) := by
  intro e he
  have hfields : e.orderBeforeUpdate = e.dataBeforeUpdate ∧
      e.dataBeforeUpdate =
        some (jsOr ctx.hookState.dataBeforeUpdate ctx.hookState.orderBeforeUpdate) := by
    simp only [afterSaveHook] at he
    repeat' split at he
    all_goals try simp only [List.not_mem_nil] at he
    all_goals try (rw [List.mem_singleton] at he; subst he; exact ⟨rfl, rfl⟩)
    all_goals
      obtain ⟨m, hmm⟩ := afterSaveBulk_emitted_shape _ _ _ _ _ _ _ _ _ e he
      rw [hmm]
      exact ⟨rfl, rfl⟩
  refine ⟨hfields.1, hfields.2, ?_, ?_⟩
  · intro ht
    rw [hfields.2]
    simp [jsOr, ht]
  · intro hu
    rw [hfields.2]
    simp [jsOr, hu, truthy]

/-- Witness for C10: on a concrete update with a set
`hookState.orderBeforeUpdate` and an absent `hookState.dataBeforeUpdate`,
the emitted envelope satisfies the mirrored-field property. -/
theorem afterSave_orderBeforeUpdate_mirrors_witness :
    ∃ e ∈ (afterSaveHook {} ⟨fun _ => true, fun _ _ => .ok [], .jsUndefined⟩ (fun _ => .ok ())
      { modelName := .str "Customer",
        inst := .obj [("id", .str "42")],
        hookState := { orderBeforeUpdate := .obj [("status", .str "old")] } }).emitted,
      e.orderBeforeUpdate = e.dataBeforeUpdate ∧
      e.dataBeforeUpdate = some (JsVal.obj [("status", .str "old")]) := by
  refine ⟨{ modelName := .str "Customer", methodName := .str "update",
            modelId := .str "42", data := .obj [("id", .str "42")],
            updateData := some .jsUndefined, userId := .null,
            dataBeforeUpdate := some (.obj [("status", .str "old")]),
            orderBeforeUpdate := some (.obj [("status", .str "old")]) }, ?_, ?_⟩
  · simp [afterSaveHook, truthy, getModelName, getProp, shouldPublish, jsOr,
      capturedUserId]
  · have h := afterSave_orderBeforeUpdate_mirrors {}
      ⟨fun _ => true, fun _ _ => .ok [], .jsUndefined⟩ (fun _ => .ok ())
      { modelName := .str "Customer",
        inst := .obj [("id", .str "42")],
        hookState := { orderBeforeUpdate := .obj [("status", .str "old")] } }
      { modelName := .str "Customer", methodName := .str "update",
        modelId := .str "42", data := .obj [("id", .str "42")],
        updateData := some .jsUndefined, userId := .null,
        dataBeforeUpdate := some (.obj [("status", .str "old")]),
        orderBeforeUpdate := some (.obj [("status", .str "old")]) }
      (by simp [afterSaveHook, truthy, getModelName, getProp, shouldPublish,
        jsOr, capturedUserId])
    exact ⟨h.1, h.2.1⟩

/-- Helper: `filterModels` keeps every record the filter chain
passes. -/
theorem filterModels_all_pass (self : Relay) (mn meth : JsVal) (ctx : Ctx)
    (l : List JsVal)
    (h : ∀ m ∈ l, shouldPublish self mn meth m ctx = .ok true) :
    filterModels self mn meth ctx l = .ok l := by
  induction l with
  | nil => rfl
  | cons a l ih =>
    have ha := h a (List.mem_cons_self a l)
    have hl := ih (fun m hm => h m (List.mem_cons_of_mem a hm))
    simp only [filterModels, ha, hl]
    rfl

/-- Helper: `filterModels` drops exactly the one record the filter
chain rejects. -/
theorem filterModels_reject_middle (self : Relay) (mn meth : JsVal) (ctx : Ctx)
    (l1 l2 : List JsVal) (k : JsVal)
    (h1 : ∀ m ∈ l1, shouldPublish self mn meth m ctx = .ok true)
    (h2 : ∀ m ∈ l2, shouldPublish self mn meth m ctx = .ok true)
    (hk : shouldPublish self mn meth k ctx = .ok false) :
    filterModels self mn meth ctx (l1 ++ k :: l2) = .ok (l1 ++ l2) := by
  induction l1 with
  | nil =>
    have hl2 := filterModels_all_pass self mn meth ctx l2 h2
    simp only [filterModels, hk, hl2]
    rfl
  | cons a l ih =>
    have ha := h1 a (List.mem_cons_self a l)
    have hl := ih (fun m hm => h1 m (List.mem_cons_of_mem a hm))
    simp only [List.cons_append, filterModels, List.append_eq, ha, hl]
    rfl

/-- C6: a bulk update whose re-query matches the records
`l1 ++ k :: l2`, where the filter chain rejects exactly the record `k`,
makes the after-save hook emit one envelope per surviving record — that
is `(l1 ++ k :: l2).length − 1` of them — and no emitted envelope
carries the rejected record as its `data`. -/
theorem afterSave_bulk_rejected_record (self : Relay) (app : App)
    (emit : Envelope → Except JsErr Unit) (ctx : Ctx)
    (l1 l2 : List JsVal) (k : JsVal)
    (hname : truthy (getModelName ctx) = true)
    (hnosingle : truthy ctx.inst = false)
    (hupd : ctx.isNewInstance = false)
    (hwhere : truthy ctx.whereClause = true)
    (hmodel : app.hasModel (getModelName ctx) = true)
    (hfind : app.find (getModelName ctx) ctx.whereClause = .ok (l1 ++ k :: l2))
    (h1 : ∀ m ∈ l1, shouldPublish self (getModelName ctx) (JsVal.str "update") m ctx = .ok true)
    (h2 : ∀ m ∈ l2, shouldPublish self (getModelName ctx) (JsVal.str "update") m ctx = .ok true)
    (hk : shouldPublish self (getModelName ctx) (JsVal.str "update") k ctx = .ok false)
    (hkfresh : k ∉ l1 ++ l2) :
    (afterSaveHook self app emit ctx).emitted =
      (l1 ++ l2).map (bulkSaveEnvelope (getModelName ctx) (JsVal.str "update")
        ctx.hookState.updateData (capturedUserId app)
        (jsOr ctx.hookState.dataBeforeUpdate ctx.hookState.orderBeforeUpdate)) ∧
    (afterSaveHook self app emit ctx).emitted.length = (l1 ++ k :: l2).length - 1 ∧
    (∀ e ∈ (afterSaveHook self app emit ctx).emitted, e.data ≠ k) := by
  have hfm := filterModels_reject_middle self (getModelName ctx) (JsVal.str "update")
    ctx l1 l2 k h1 h2 hk
  have hrun : afterSaveHook self app emit ctx =
      afterSaveBulk self app emit ctx (getModelName ctx) (JsVal.str "update")
        ctx.hookState.updateData (capturedUserId app)
        (jsOr ctx.hookState.dataBeforeUpdate ctx.hookState.orderBeforeUpdate) := by
    simp [afterSaveHook, hname, hnosingle, hupd]
  have hemit : (afterSaveHook self app emit ctx).emitted =
      (l1 ++ l2).map (bulkSaveEnvelope (getModelName ctx) (JsVal.str "update")
        ctx.hookState.updateData (capturedUserId app)
        (jsOr ctx.hookState.dataBeforeUpdate ctx.hookState.orderBeforeUpdate)) := by
    rw [hrun]
    rcases hl : l1 ++ l2 with _ | ⟨a, rest⟩ <;>
      simp [afterSaveBulk, hwhere, hmodel, hfind, hfm, hl]
  refine ⟨hemit, ?_, ?_⟩
  · rw [hemit]
    simp
  · intro e he
    rw [hemit] at he
    obtain ⟨m, hm, he2⟩ := List.mem_map.mp he
    have hdata : e.data = m := by rw [← he2]; simp [bulkSaveEnvelope]
    intro hdk
    exact hkfresh ((hdata.symm.trans hdk) ▸ hm)

/-- Witness for C6: three records match, the filter vetoes the one with
id 2, and exactly two envelopes are emitted. -/
theorem afterSave_bulk_rejected_record_witness :
    (afterSaveHook { filters := some [vetoIdTwo] } threeRecApp okEmit
      bulkCtx).emitted.length = 2 := by
  have h := afterSave_bulk_rejected_record { filters := some [vetoIdTwo] }
    threeRecApp okEmit bulkCtx [recId 1] [recId 3] (recId 2)
    rfl rfl rfl rfl rfl rfl
    (by intro m hm; rw [List.mem_singleton] at hm; subst hm; rfl)
    (by intro m hm; rw [List.mem_singleton] at hm; subst hm; rfl)
    rfl
    (by simp [recId])
  simpa using h.2.1

/-- C1 counterexample: when the bulk re-query rejects, the after-save
hook chain does not complete successfully — `.catch(next)` passes the
error to `next`, failing the chain — contradicting the claim that the
hook chain completes regardless of relay failures. -/
theorem hook_requery_failure_fails_chain_counterexample :
    (afterSaveHook {} dbDownApp okEmit bulkCtx).outcome = .error "db down" ∧
    (afterSaveHook {} dbDownApp okEmit bulkCtx).outcome ≠ .ok () := by
  refine ⟨rfl, fun h => ?_⟩
  rw [show (afterSaveHook {} dbDownApp okEmit bulkCtx).outcome =
    Except.error "db down" from rfl] at h
  exact Except.noConfusion h

/-- C1 (amended): a failure while re-querying affected records or while
publishing envelopes is not logged-and-skipped; it propagates into the
hook chain — `next(err)` from `.catch(next)`, or the rejected emit
promise returned by the single-instance branch — so the chain fails:
(a) a rejected bulk re-query fails the after-save chain with that
error; (b) a rejected single-instance emit fails the after-save chain
with that error; (c) a rejected re-query fails the before-delete chain
with that error. -/
theorem hook_failures_propagate
    (selfA : Relay) (appA : App) (emitA : Envelope → Except JsErr Unit)
    (ctxA : Ctx) (eA : JsErr)
    (hnameA : truthy (getModelName ctxA) = true)
    (hnosingleA : truthy ctxA.inst = false)
    (hwhereA : truthy ctxA.whereClause = true)
    (hmodelA : appA.hasModel (getModelName ctxA) = true)
    (hfindA : appA.find (getModelName ctxA) ctxA.whereClause = .error eA)
    (selfB : Relay) (appB : App) (emitB : Envelope → Except JsErr Unit)
    (ctxB : Ctx) (eB : JsErr)
    (hnameB : truthy (getModelName ctxB) = true)
    (hinstB : truthy ctxB.inst = true)
    (hidB : truthy (getProp ctxB.inst "id") = true)
    (hpubB : shouldPublish selfB (getModelName ctxB)
        (if ctxB.isNewInstance then JsVal.str "create" else JsVal.str "update")
        ctxB.inst ctxB = .ok true)
    (hemitB : ∀ env, emitB env = .error eB)
    (selfC : Relay) (appC : App) (emitC : Envelope → Except JsErr Unit)
    (ctxC : Ctx) (eC : JsErr)
    (hnameC : truthy (getModelName ctxC) = true)
    (hmodelC : appC.hasModel (getModelName ctxC) = true)
    (hfindC : appC.find (getModelName ctxC) ctxC.whereClause = .error eC) :
    (afterSaveHook selfA appA emitA ctxA).outcome = .error eA ∧
    (afterSaveHook selfB appB emitB ctxB).outcome = .error eB ∧
    (beforeDeleteHook selfC appC emitC ctxC).outcome = .error eC := by
  refine ⟨?_, ?_, ?_⟩
  · have hrun : afterSaveHook selfA appA emitA ctxA =
        afterSaveBulk selfA appA emitA ctxA (getModelName ctxA)
          (if ctxA.isNewInstance then JsVal.str "create" else JsVal.str "update")
          ctxA.hookState.updateData (capturedUserId appA)
          (jsOr ctxA.hookState.dataBeforeUpdate ctxA.hookState.orderBeforeUpdate) := by
      simp [afterSaveHook, hnameA, hnosingleA]
    rw [hrun]
    simp [afterSaveBulk, hwhereA, hmodelA, hfindA]
  · simp [afterSaveHook, hnameB, hinstB, hidB, hpubB, hemitB]
  · simp [beforeDeleteHook, hnameC, hmodelC, hfindC]

/-- Witness for C1 (amended): concrete failing re-query, failing emit
and failing delete re-query all fail their hook chains. -/
theorem hook_failures_propagate_witness :
    (afterSaveHook {} dbDownApp okEmit bulkCtx).outcome = .error "db down" ∧
    (afterSaveHook {} threeRecApp (fun _ => .error "publish failed")
      singleCtx).outcome = .error "publish failed" ∧
    (beforeDeleteHook {} dbDownApp okEmit bulkCtx).outcome = .error "db down" :=
  hook_failures_propagate
    {} dbDownApp okEmit bulkCtx "db down" rfl rfl rfl rfl rfl
    {} threeRecApp (fun _ => .error "publish failed") singleCtx "publish failed"
    rfl rfl rfl rfl (fun _ => rfl)
    {} dbDownApp okEmit bulkCtx "db down" rfl rfl rfl

/-- C3 counterexample: with one configured filter that always throws, a
single-instance save that would otherwise publish emits nothing — the
exception vetoes the record and fails the chain — contradicting the
claim that a throwing filter is treated as a pass. -/
theorem throwing_filter_blocks_publication_counterexample :
    (afterSaveHook { filters := some [throwingFilter] } threeRecApp okEmit
      singleCtx).emitted = [] ∧
    (afterSaveHook { filters := some [throwingFilter] } threeRecApp okEmit
      singleCtx).outcome = .error "filter threw" ∧
    shouldPublish { filters := some [throwingFilter] } (.str "Customer")
      (.str "create") (recId 1) singleCtx ≠ .ok true := by
  refine ⟨rfl, rfl, fun h => ?_⟩
  rw [show shouldPublish { filters := some [throwingFilter] } (.str "Customer")
    (.str "create") (recId 1) singleCtx = Except.error "filter threw" from rfl] at h
  exact Except.noConfusion h

/-- C3 (amended): the filter chain treats a non-callable entry as a
pass (it is skipped and cannot veto), and no filters — absent or an
empty list — means publish-always; but a filter that throws does not
pass: the exception propagates out of `shouldPublish`, the record is
not published, and the hook chain fails with that exception. -/
theorem filter_chain_error_policy
    (mn meth inst : JsVal) (ctx : Ctx) (v : JsVal) (rest : List FilterEntry)
    (f : JsVal → JsVal → JsVal → Ctx → Except JsErr JsVal) (e : JsErr)
    (self : Relay) (app : App) (emit : Envelope → Except JsErr Unit) (ctx1 : Ctx)
    (hself : self.filters = some [.func f])
    (hthrow : f (getModelName ctx1)
      (if ctx1.isNewInstance then JsVal.str "create" else JsVal.str "update")
      ctx1.inst ctx1 = .error e)
    (hname1 : truthy (getModelName ctx1) = true)
    (hinst1 : truthy ctx1.inst = true)
    (hid1 : truthy (getProp ctx1.inst "id") = true) :
    shouldPublish { filters := none } mn meth inst ctx = .ok true ∧
    shouldPublish { filters := some [] } mn meth inst ctx = .ok true ∧
    everyFilter mn meth inst ctx (.notFunction v :: rest) =
      everyFilter mn meth inst ctx rest ∧
    (afterSaveHook self app emit ctx1).emitted = [] ∧
    (afterSaveHook self app emit ctx1).outcome = .error e := by
  have hsp : shouldPublish self (getModelName ctx1)
      (if ctx1.isNewInstance then JsVal.str "create" else JsVal.str "update")
      ctx1.inst ctx1 = .error e := by
    simp [shouldPublish, hself, everyFilter, hthrow]
  refine ⟨rfl, rfl, rfl, ?_, ?_⟩ <;>
    simp [afterSaveHook, hname1, hinst1, hid1, hsp]

/-- Witness for C3 (amended): concrete non-callable entry, empty and
absent filter lists, and a concrete throwing filter on a concrete
create. -/
theorem filter_chain_error_policy_witness :
    shouldPublish { filters := none } (.str "M") (.str "create") (recId 1) {} = .ok true ∧
    shouldPublish { filters := some [] } (.str "M") (.str "create") (recId 1) {} = .ok true ∧
    everyFilter (.str "M") (.str "create") (recId 1) {} [.notFunction (.num 5)] =
      everyFilter (.str "M") (.str "create") (recId 1) {} [] ∧
    (afterSaveHook { filters := some [throwingFilter] } threeRecApp okEmit
      singleCtx).emitted = [] ∧
    (afterSaveHook { filters := some [throwingFilter] } threeRecApp okEmit
      singleCtx).outcome = .error "filter threw" :=
  filter_chain_error_policy (.str "M") (.str "create") (recId 1) {} (.num 5) []
    throwingFilterFn "filter threw"
    { filters := some [throwingFilter] } threeRecApp okEmit singleCtx
    rfl rfl rfl rfl rfl

/-- C2 counterexample: for a failing `eventFn`, the actor-context
variable is not cleared after the invocation — the `unsetPubsubUserId`
step is chained with `.then` and is skipped on rejection — so the
variable still holds the truthy userId, contradicting the claim that it
is cleared for both successful and failing invocations. -/
theorem actor_context_not_cleared_on_failure_counterexample :
    (subscriptionCallback true .jsUndefined (fun _ => .error "handler failed")
      dmsg).slotAfter = .str "u1" ∧
    truthy (subscriptionCallback true .jsUndefined (fun _ => .error "handler failed")
      dmsg).slotAfter = true ∧
    (subscriptionCallback true .jsUndefined (fun _ => .error "handler failed")
      dmsg).outcome = .error "handler failed" :=
  ⟨rfl, rfl, rfl⟩

/-- C2 (amended): inside `eventFn` the actor-context variable equals
the envelope's `userId`; after a successful `eventFn` the variable is
cleared (set to `null`); after a failing `eventFn` the clearing step is
skipped, and the variable retains the userId. -/
theorem subscriptionCallback_actor_context (slot d : JsVal)
    (eventFn : EventArgs → Except JsErr JsVal) (r : JsVal) (e : JsErr)
    (hd : truthy d = true) (hslot : truthy slot = false)
    (huid : truthy (getProp d "userId") = true) :
    (∀ inv ∈ (subscriptionCallback true slot eventFn d).calls,
        inv.slotDuring = getProp d "userId" ∧ inv.args = eventArgsOf d) ∧
    (eventFn (eventArgsOf d) = .ok r →
        (subscriptionCallback true slot eventFn d).slotAfter = .null ∧
        (subscriptionCallback true slot eventFn d).calls =
          [{ args := eventArgsOf d, slotDuring := getProp d "userId" }]) ∧
    (eventFn (eventArgsOf d) = .error e →
        (subscriptionCallback true slot eventFn d).slotAfter = getProp d "userId" ∧
        truthy (subscriptionCallback true slot eventFn d).slotAfter = true) := by
  simp only [subscriptionCallback, hd, hslot, huid]
  refine ⟨?_, ?_, ?_⟩
  · intro inv hinv
    simp at hinv
    rcases hev : eventFn (eventArgsOf d) with _ | _ <;>
      simp [hev] at hinv <;> simp [hinv]
  · intro hok
    simp [hok]
  · intro herr
    simp [herr, huid]

/-- Witness for C2 (amended): on a concrete message and a succeeding
`eventFn`, the variable is `null` afterwards and the one invocation saw
the envelope's userId. -/
theorem subscriptionCallback_actor_context_witness :
    (subscriptionCallback true .jsUndefined (fun _ => .ok (.num 1)) dmsg).slotAfter = .null ∧
    (subscriptionCallback true .jsUndefined (fun _ => .ok (.num 1)) dmsg).calls =
      [{ args := eventArgsOf dmsg, slotDuring := getProp dmsg "userId" }] :=
  (subscriptionCallback_actor_context .jsUndefined dmsg (fun _ => .ok (.num 1))
    (.num 1) "unused" rfl rfl rfl).2.1 rfl

/-- C4 counterexample: a message whose `modelName` differs from the
subscribed model (`Customer`) and that lacks a `modelId` is not
discarded: `eventFn` is invoked once, with `undefined` as `modelId` —
the callback performs no modelName or modelId check. -/
theorem mismatched_envelope_not_discarded_counterexample :
    (subscriptionCallback true .jsUndefined (fun _ => .ok .jsUndefined)
      (.obj [("modelName", .str "Order"), ("userId", .str "u1")])).calls =
      [{ args := { modelName := .str "Order", methodName := .jsUndefined,
                   modelId := .jsUndefined, data := .jsUndefined, updateData := .jsUndefined,
                   userId := .str "u1", dataBeforeUpdate := .jsUndefined },
         slotDuring := .str "u1" }] ∧
    getProp (.obj [("modelName", .str "Order"), ("userId", .str "u1")])
      "modelId" = .jsUndefined ∧
    (JsVal.str "Order") ≠ (JsVal.str "Customer") := by
  refine ⟨rfl, rfl, fun h => ?_⟩
  simp at h

/-- C4 (amended): the subscription callback never checks `modelName` or
`modelId`.  It discards silently only a falsy message; a truthy message
without a truthy `userId` is rejected with a logged error (and
`eventFn` is not invoked); a truthy message with a truthy `userId`
invokes `eventFn` exactly once, whatever its `modelName` and `modelId`
are. -/
theorem subscriptionCallback_no_envelope_filtering (slot d : JsVal)
    (eventFn : EventArgs → Except JsErr JsVal)
    (hslot : truthy slot = false) :
    (truthy d = false →
      subscriptionCallback true slot eventFn d =
        { slotAfter := slot, calls := [], outcome := .ok () }) ∧
    (truthy d = true → truthy (getProp d "userId") = false →
      (subscriptionCallback true slot eventFn d).calls = [] ∧
      (subscriptionCallback true slot eventFn d).outcome =
        .error "Could not find pubsubUserId") ∧
    (truthy d = true → truthy (getProp d "userId") = true →
      (subscriptionCallback true slot eventFn d).calls =
        [{ args := eventArgsOf d, slotDuring := getProp d "userId" }]) := by
  refine ⟨?_, ?_, ?_⟩
  · intro hdf
    simp [subscriptionCallback, hdf]
  · intro hdt huf
    simp [subscriptionCallback, hdt, hslot, huf]
  · intro hdt hut
    simp only [subscriptionCallback, hdt, hslot, hut]
    rcases hev : eventFn (eventArgsOf d) with _ | _ <;> simp [hev]

/-- Witness for C4 (amended): a concrete message with a userId but no
`modelId` at all still reaches `eventFn`. -/
theorem subscriptionCallback_no_envelope_filtering_witness :
    (subscriptionCallback true .jsUndefined (fun _ => .ok .jsUndefined)
      (.obj [("userId", .str "u9")])).calls =
      [{ args := eventArgsOf (.obj [("userId", .str "u9")]),
         slotDuring := getProp (.obj [("userId", .str "u9")]) "userId" }] :=
  (subscriptionCallback_no_envelope_filtering .jsUndefined
    (.obj [("userId", .str "u9")]) (fun _ => .ok .jsUndefined) rfl).2.2 rfl rfl

/-- Helper: when every subscribe resolves, folding the
`prev.then(() => subscribe(...))` chain appends, per model in list
order, a start event followed by its completion event. -/
theorem subscribeChain_foldl (subRes : String → Except JsErr Unit)
    (models : List String) (tr : List SubEvent)
    (h : ∀ m ∈ models, subRes m = .ok ()) :
    models.foldl (subscribeStep subRes) (tr, .ok ()) =
      (tr ++ models.flatMap (fun m => [.subStart m, .subDone m]), .ok ()) := by
  induction models generalizing tr with
  | nil => simp
  | cons a l ih =>
    have ha := h a (List.mem_cons_self a l)
    have hl := fun m hm => h m (List.mem_cons_of_mem a hm)
    simp only [List.foldl_cons, subscribeStep, ha]
    rw [ih _ hl]
    simp

/-- C9: with a valid client configuration and resolving subscribes, the
subscriptions are established sequentially in list order: the trace is
exactly start/completion pairs, one model after the other, so for any
two models `a` before `b` in `modelsToSubscribe`, the completion of
`a`'s subscribe precedes the start of `b`'s. -/
theorem clientSide_sequential_subscriptions (opts : Options)
    (subRes : String → Except JsErr Unit)
    (hp : truthy opts.projectId = true)
    (hm : opts.modelsToSubscribe ≠ [])
    (hev : opts.hasEventFn = true)
    (hok : ∀ m ∈ opts.modelsToSubscribe, subRes m = .ok ()) :
    (clientSide opts subRes).1 =
      opts.modelsToSubscribe.flatMap (fun m => [.subStart m, .subDone m]) ∧
    ∀ pre a mid b post,
      opts.modelsToSubscribe = pre ++ a :: (mid ++ b :: post) →
      ∃ xs ys zs, (clientSide opts subRes).1 =
        xs ++ SubEvent.subDone a :: (ys ++ SubEvent.subStart b :: zs) := by
  have hne : opts.modelsToSubscribe.isEmpty = false := by
    cases hMs : opts.modelsToSubscribe with
    | nil => exact absurd hMs hm
    | cons a l => rfl
  have h1 : (clientSide opts subRes).1 =
      opts.modelsToSubscribe.flatMap (fun m => [.subStart m, .subDone m]) := by
    simp only [clientSide, hp, hne, hev, subscribeChain]
    rw [subscribeChain_foldl subRes _ [] hok]
    simp
  refine ⟨h1, ?_⟩
  intro pre a mid b post hsplit
  refine ⟨pre.flatMap (fun m => [.subStart m, .subDone m]) ++ [SubEvent.subStart a],
          mid.flatMap (fun m => [.subStart m, .subDone m]),
          SubEvent.subDone b :: post.flatMap (fun m => [.subStart m, .subDone m]), ?_⟩
  rw [h1, hsplit]
  simp

/-- Witness for C9: subscribing to `Customer` then `Order` produces the
sequential trace. -/
theorem clientSide_sequential_subscriptions_witness :
    (clientSide { projectId := .str "p", modelsToSubscribe := ["Customer", "Order"],
                  hasEventFn := true } (fun _ => .ok ())).1 =
      [.subStart "Customer", .subDone "Customer",
       .subStart "Order", .subDone "Order"] := by
  have h := (clientSide_sequential_subscriptions
    { projectId := .str "p", modelsToSubscribe := ["Customer", "Order"],
      hasEventFn := true } (fun _ => .ok ()) rfl (by simp) rfl
    (fun m hm => rfl)).1
  simpa using h

/-- Helper: a successful `Pubsub` call on a fresh object sets
`serviceName` from the options and `env` from `NODE_ENV`, both of which
the call required to be non-empty. -/
theorem Pubsub_fresh_sets_identity (appPresent : Bool) (nodeEnv : String)
    (opts : Options) (relay : Relay)
    (h : Pubsub {} appPresent nodeEnv opts = .ok relay) :
    relay.serviceName = some opts.serviceName ∧ relay.env = some nodeEnv ∧
    opts.serviceName ≠ "" ∧ nodeEnv ≠ "" := by
  by_cases h1 : opts.serviceName = ""
  · simp [Pubsub, h1] at h
  by_cases h2 : nodeEnv = ""
  · simp [Pubsub, h1, h2] at h
  · simp only [Pubsub, h1, h2, if_false, optTruthy] at h
    repeat' split at h
    all_goals try contradiction
    all_goals try simp at h
    all_goals (subst h; exact ⟨rfl, rfl, h1, h2⟩)

/-- Helper: a successful `Pubsub` call on an object whose `serviceName`
and `env` are already (truthily) set leaves both unchanged: the guards
`if (!self.serviceName)` and `if (!self.env)` skip the assignments. -/
theorem Pubsub_preserves_identity (self : Relay) (appPresent : Bool)
    (nodeEnv : String) (opts : Options) (relay : Relay)
    (hs : optTruthy self.serviceName = true)
    (he : optTruthy self.env = true)
    (h : Pubsub self appPresent nodeEnv opts = .ok relay) :
    relay.serviceName = self.serviceName ∧ relay.env = self.env := by
  by_cases h1 : opts.serviceName = ""
  · simp [Pubsub, h1] at h
  by_cases h2 : nodeEnv = ""
  · simp [Pubsub, h1, h2] at h
  · simp only [Pubsub, h1, h2, if_false, hs, he, if_true] at h
    repeat' split at h
    all_goals try contradiction
    all_goals try simp at h
    all_goals (subst h; exact ⟨rfl, rfl⟩)

/-- C7: starting from an empty registry, a first successful call stores
one relay under the service name with `serviceName` and `env` set from
that call, and a second successful call with the same `serviceName`
returns the same object reference and leaves both identity fields
exactly as the first call set them (whatever `NODE_ENV` the second call
ran under). -/
theorem registry_second_call_same_instance
    (app1 app2 : Bool) (env1 env2 : String) (o1 o2 : Options)
    (st1 st2 : RegistryState) (r1 r2 : Nat)
    (hname : o2.serviceName = o1.serviceName)
    (h1 : moduleExports {} app1 env1 o1 = (st1, .ok r1))
    (h2 : moduleExports st1 app2 env2 o2 = (st2, .ok r2)) :
    r2 = r1 ∧
    (heapGet st1 r1).serviceName = some o1.serviceName ∧
    (heapGet st1 r1).env = some env1 ∧
    (heapGet st2 r2).serviceName = some o1.serviceName ∧
    (heapGet st2 r2).env = some env1 := by
  unfold moduleExports at h1
  rcases hP1 : Pubsub {} app1 env1 o1 with e1 | relay1 <;> rw [hP1] at h1
  · simp at h1
  have hA := Pubsub_fresh_sets_identity app1 env1 o1 relay1 hP1
  simp only [List.lookup, Prod.mk.injEq, Except.ok.injEq] at h1
  obtain ⟨hst1, hr1⟩ := h1
  subst hst1
  subst hr1
  have hget1 : heapGet { entries := [(o1.serviceName, 0)],
                         heap := [(0, relay1)], nextRef := 1 } 0 = relay1 := by
    simp [heapGet, List.lookup]
  unfold moduleExports at h2
  rw [hname] at h2
  simp only [List.lookup, beq_self_eq_true, if_pos] at h2
  by_cases hty : optTruthy o2.type = true
  · rw [if_pos hty] at h2
    rcases hP2 : Pubsub (heapGet { entries := [(o1.serviceName, 0)],
                                   heap := [(0, relay1)], nextRef := 1 } 0)
        app2 env2 o2 with e2 | relay2 <;>
      rw [hP2] at h2
    · simp at h2
    rw [hget1] at hP2
    have hs : optTruthy relay1.serviceName = true := by
      rw [hA.1]
      simp [optTruthy, hA.2.2.1]
    have he : optTruthy relay1.env = true := by
      rw [hA.2.1]
      simp [optTruthy, hA.2.2.2]
    have hB := Pubsub_preserves_identity relay1 app2 env2 o2 relay2 hs he hP2
    simp only [Prod.mk.injEq, Except.ok.injEq] at h2
    obtain ⟨hst2, hr2⟩ := h2
    subst hst2
    subst hr2
    have hget2 : heapGet { entries := [(o1.serviceName, 0)],
                           heap := heapSet [(0, relay1)] 0 relay2, nextRef := 1 } 0 = relay2 := by
      simp [heapGet, heapSet, List.lookup]
    refine ⟨rfl, ?_, ?_, ?_, ?_⟩
    · rw [hget1, hA.1]
    · rw [hget1, hA.2.1]
    · rw [hget2, hB.1, hA.1]
    · rw [hget2, hB.2, hA.2.1]
  · rw [if_neg hty] at h2
    simp only [Prod.mk.injEq, Except.ok.injEq] at h2
    obtain ⟨hst2, hr2⟩ := h2
    subst hst2
    subst hr2
    exact ⟨rfl, by rw [hget1, hA.1], by rw [hget1, hA.2.1],
           by rw [hget1, hA.1], by rw [hget1, hA.2.1]⟩

/-- Witness for C7: a concrete server configuration registered twice
under `svc`, the second time under a different `NODE_ENV`, keeps the
reference and the identity fields of the first call. -/
theorem registry_second_call_same_instance_witness :
    (0 : Nat) = 0 ∧
    (heapGet { entries := [("svc", 0)],
               heap := [(0, ({ serviceName := some "svc", env := some "production",
                               filters := none, type := some "server" } : Relay))],
               nextRef := 1 } 0).serviceName = some "svc" ∧
    (heapGet { entries := [("svc", 0)],
               heap := [(0, ({ serviceName := some "svc", env := some "production",
                               filters := none, type := some "server" } : Relay))],
               nextRef := 1 } 0).env = some "production" ∧
    (heapGet { entries := [("svc", 0)],
               heap := [(0, ({ serviceName := some "svc", env := some "production",
                               filters := none, type := some "server" } : Relay))],
               nextRef := 1 } 0).serviceName = some "svc" ∧
    (heapGet { entries := [("svc", 0)],
               heap := [(0, ({ serviceName := some "svc", env := some "production",
                               filters := none, type := some "server" } : Relay))],
               nextRef := 1 } 0).env = some "production" :=
  registry_second_call_same_instance true true "production" "staging"
    { serviceName := "svc", type := some "server", projectId := .str "p",
      modelsToBroadcast := ["Customer"] }
    { serviceName := "svc", type := some "server", projectId := .str "p",
      modelsToBroadcast := ["Customer"] }
    { entries := [("svc", 0)],
      heap := [(0, ({ serviceName := some "svc", env := some "production",
                      filters := none, type := some "server" } : Relay))],
      nextRef := 1 }
    { entries := [("svc", 0)],
      heap := [(0, ({ serviceName := some "svc", env := some "production",
                      filters := none, type := some "server" } : Relay))],
      nextRef := 1 }
    0 0 rfl rfl rfl

end LoopbackPubsub
